import Mathlib

/-! Verification of the 1-D beach morphodynamics engine (the
`BeachSimulation` component): grid state, tidal/wave forcing, the
hydrodynamic, sediment-transport and morphodynamic sub-steps of one
simulation step, grid creation and reset.

The source performs its arithmetic on IEEE doubles; the embedding works
over `ℚ` and abstracts the transcendental primitives the source calls
(`Math.sin`, `Math.cos`, `Math.sqrt`, `Math.pow (·) 1.5` and `Math.PI`)
as an arbitrary interpretation `MathModel`, since the clamp/threshold
structure of the solver does not depend on their values.  All other
operations (`+`, `-`, `*`, `/`, `Math.abs`, `Math.max`, `Math.min`,
`Math.sign`, comparisons) are exact on `ℚ`. -/

namespace Beach

/-- Interpretation of the transcendental math primitives used by the solver:
`sin`, `cos`, `sqrt`, the map `x ↦ x ^ 1.5` (written `pow15`), and `π`. -/
structure MathModel where
  sin : ℚ → ℚ
  cos : ℚ → ℚ
  sqrt : ℚ → ℚ
  pow15 : ℚ → ℚ
  pi : ℚ

/-- The `SimulationParams` record of the source. -/
structure SimulationParams where
  tidalRange : ℚ
  tidalPeriod : ℚ
  beachSlope : ℚ
  grainSize : ℚ
  waveHeight : ℚ
  wavePeriod : ℚ
  simulationSpeed : ℚ
  sedimentSupply : ℚ

/-- The `GridPoint` record of the source: one spatial cell of the profile. -/
structure GridPoint where
  x : ℚ
  h : ℚ
  u : ℚ
  zb : ℚ
  qs : ℚ
  sedimentThickness : ℚ
  bedrockLevel : ℚ
  initialSedimentThickness : ℚ
  cumulativeChange : ℚ

/-- A grid is indexed by cell number; only indices `< gridSize` are meaningful. -/
abbrev Grid := ℕ → GridPoint

/-- The source constant `gridSize = 200`. -/
def gridSize : ℕ := 200

/-- The source constant `domainLength = 1000` (meters). -/
def domainLength : ℚ := 1000

/-- The source constant `dx = domainLength / gridSize`. -/
def dx : ℚ := domainLength / (gridSize : ℚ)

/-- The source constant `dt = 0.1` (seconds). -/
def dt : ℚ := 0.1

/-- The `Math.sign` function. -/
def msign (x : ℚ) : ℚ := if 0 < x then 1 else if x < 0 then -1 else 0

/-- Function `getTidalLevel` of the source. -/
def getTidalLevel (M : MathModel) (p : SimulationParams) (time : ℚ) : ℚ :=
  p.tidalRange / 2 * M.sin (2 * M.pi * time / (p.tidalPeriod * 3600))

/-- Function `getWaveLevel` of the source. -/
def getWaveLevel (M : MathModel) (p : SimulationParams) (time x : ℚ) : ℚ :=
  p.waveHeight * M.sin (2 * M.pi * time / p.wavePeriod - x / 100)

/-- The wave-induced force term, inlined as `waveForce` in `updateSimulation`. -/
def getWaveForce (M : MathModel) (p : SimulationParams) (time x : ℚ) : ℚ :=
  p.waveHeight * 0.2 * M.cos (2 * M.pi * time / p.wavePeriod - x / 100)

/-- Function `calculateSedimentTransport` of the source (simplified Meyer-Peter
Muller bedload formula with an availability throttle). -/
def calculateSedimentTransport (M : MathModel) (p : SimulationParams)
    (u h sedimentThickness : ℚ) : ℚ :=
  let g : ℚ := 9.81
  let rho : ℚ := 1000
  let rho_s : ℚ := 2650
  let d50 := p.grainSize / 1000
  let tau := rho * g * h * |u| * u / (h + 0.01)
  let tau_crit := 0.03 * (rho_s - rho) * g * d50
  let availabilityFactor := min 1 (sedimentThickness / 0.02)
  if |tau| > tau_crit ∧ h > 0.01 ∧ sedimentThickness > 0.001 then
    let tau_star := |tau| / (tau_crit + 0.0001)
    let transport := 5.0 * M.sqrt (g * d50) * d50 * M.pow15 (min (tau_star - 1) 8)
      * msign u * availabilityFactor
    max (-0.02) (min 0.02 transport)
  else 0

/-- First loop of `updateSimulation`: water depth from the total water level,
for every cell, before any velocity computation. -/
def stepWater (M : MathModel) (p : SimulationParams) (time : ℚ) (g : Grid) : Grid :=
  fun i =>
    { g i with
      h := max 0 (getTidalLevel M p time + getWaveLevel M p time (g i).x - (g i).zb) }

/-- The `newVelocities` array of `updateSimulation`: entries `1..gridSize-2`
come from the simplified momentum balance (reading the already-updated depth
field and the pre-step velocities), all other entries are the `fill(0)`
default.  The later explicit assignments `u[0] = 0` and `u[gridSize-1] = 0`
are absorbed here, as those entries are already `0`. -/
def newVelocity (M : MathModel) (p : SimulationParams) (time : ℚ) (g : Grid) (i : ℕ) : ℚ :=
  if 1 ≤ i ∧ i ≤ gridSize - 2 then
    if (g i).h > 0.05 then
      max (-2.0) (min 2.0 ((g i).u -
        dt * (9.81 * (((g (i + 1)).h - (g (i - 1)).h) / (2 * dx))
          + 0.02 * (g i).u * |(g i).u| / ((g i).h + 0.01)
          - getWaveForce M p time (g i).x)))
    else 0
  else 0

/-- Second and third loops of `updateSimulation`: store the new velocities and
compute the transport rate of each cell from its new velocity, new depth and
current sediment thickness. -/
def stepVelocityTransport (M : MathModel) (p : SimulationParams) (time : ℚ) (g : Grid) :
    Grid :=
  fun i =>
    { g i with
      u := newVelocity M p time g i
      qs := calculateSedimentTransport M p (newVelocity M p time g i) (g i).h
        (g i).sedimentThickness }

/-- The `bedChanges` array of `updateSimulation`: Exner bed change from the
centered transport-rate gradient, clamped to `±maxErosionRate = ±0.1`,
for entries `1..gridSize-2`; other entries keep the `fill(0)` default. -/
def bedChange (p : SimulationParams) (g : Grid) (i : ℕ) : ℚ :=
  if 1 ≤ i ∧ i ≤ gridSize - 2 then
    max (-0.1) (min 0.1
      (-(((g (i + 1)).qs - (g (i - 1)).qs) / (2 * dx)) / (1 - 0.2)
        * dt * p.simulationSpeed * 10.0))
  else 0

/-- Body of the morphodynamic application loop of `updateSimulation` for one
cell: apply the bed change to the sediment thickness (floored at 0), track the
cumulative change, recompute `zb`, cap the thickness by region, and recompute
`zb` again. -/
def applyMorpho (p : SimulationParams) (g : Grid) (i : ℕ) : GridPoint :=
  let c := g i
  let rawChange := bedChange p g i
  let oldThickness := c.sedimentThickness
  let newSedimentThickness := max 0 (oldThickness + rawChange)
  let newCumulative := c.cumulativeChange + (newSedimentThickness - oldThickness)
  let limitedThickness :=
    if c.x < 300 then min 8.0 newSedimentThickness else min 12.0 newSedimentThickness
  { c with
    sedimentThickness := limitedThickness
    cumulativeChange := newCumulative
    zb := c.bedrockLevel + limitedThickness }

/-- The morphodynamic application loop runs only over cells `2..gridSize-3`
(`for (let i = 2; i < gridSize - 2; i++)`). -/
def stepMorpho (p : SimulationParams) (g : Grid) : Grid :=
  fun i => if 2 ≤ i ∧ i ≤ gridSize - 3 then applyMorpho p g i else g i

/-- Final boundary conditions of `updateSimulation`: the outermost cells copy
`sedimentThickness` and `zb` from their interior neighbor. -/
def stepBoundary (g : Grid) : Grid :=
  fun i =>
    if i = 0 then
      { g 0 with
        sedimentThickness := (g 1).sedimentThickness
        zb := (g 1).zb }
    else if i = gridSize - 1 then
      { g (gridSize - 1) with
        sedimentThickness := (g (gridSize - 2)).sedimentThickness
        zb := (g (gridSize - 2)).zb }
    else g i

/-- Function `updateSimulation` of the source: one full simulation step. -/
def updateSimulation (M : MathModel) (p : SimulationParams) (time : ℚ) (g : Grid) : Grid :=
  stepBoundary (stepMorpho p (stepVelocityTransport M p time (stepWater M p time g)))

/-- Body of the grid-initialization loop (shared verbatim by the initial
`useState` initializer and the parameter-change effect): bedrock profile,
sediment-thickness zones, and derived fields for cell `i`. -/
def makeGridPoint (p : SimulationParams) (i : ℕ) : GridPoint :=
  let x : ℚ := (i : ℚ) * dx
  let bedrockLevel :=
    if x < 300 then -8 + x * 0.01
    else if x < 600 then -5 + (x - 300) * p.beachSlope
    else -5 + 300 * p.beachSlope + (x - 600) * p.beachSlope * 0.5
  let sedimentThickness :=
    if x < 200 then 0.2 * p.sedimentSupply
    else if x < 400 then 0.8 * p.sedimentSupply
    else if x < 700 then 1.5 * p.sedimentSupply
    else 1.0 * p.sedimentSupply
  let zb := bedrockLevel + sedimentThickness
  { x := x
    h := max 0 (-zb)
    u := 0
    zb := zb
    qs := 0
    sedimentThickness := sedimentThickness
    bedrockLevel := bedrockLevel
    initialSedimentThickness := sedimentThickness
    cumulativeChange := 0 }

/-- Grid creation from the shape parameters. -/
def createGrid (p : SimulationParams) : Grid := fun i => makeGridPoint p i

/-- Function `resetSimulation` of the source: rebuilds the grid with the same loop body
(duplicated in the source) and sets the time back to `0`. -/
def resetSimulation (p : SimulationParams) : Grid × ℚ :=
  (fun i =>
    let x : ℚ := (i : ℚ) * dx
    let bedrockLevel :=
      if x < 300 then -8 + x * 0.01
      else if x < 600 then -5 + (x - 300) * p.beachSlope
      else -5 + 300 * p.beachSlope + (x - 600) * p.beachSlope * 0.5
    let sedimentThickness :=
      if x < 200 then 0.2 * p.sedimentSupply
      else if x < 400 then 0.8 * p.sedimentSupply
      else if x < 700 then 1.5 * p.sedimentSupply
      else 1.0 * p.sedimentSupply
    let zb := bedrockLevel + sedimentThickness
    { x := x
      h := max 0 (-zb)
      u := 0
      zb := zb
      qs := 0
      sedimentThickness := sedimentThickness
      bedrockLevel := bedrockLevel
      initialSedimentThickness := sedimentThickness
      cumulativeChange := 0 }, 0)

/-- The animation loop: time advances by `dt * simulationSpeed` before each
step, starting from the created grid at time `0`. -/
def runSimulation (M : MathModel) (p : SimulationParams) : ℕ → Grid
  | 0 => createGrid p
  | n + 1 =>
    updateSimulation M p (((n : ℚ) + 1) * (dt * p.simulationSpeed)) (runSimulation M p n)

/-- The initial parameter values of the source. -/
def defaultParams : SimulationParams :=
  { tidalRange := 2.0
    tidalPeriod := 12.0
    beachSlope := 0.05
    grainSize := 0.5
    waveHeight := 1.0
    wavePeriod := 8.0
    simulationSpeed := 1.0
    sedimentSupply := 1.0 }

/-- A concrete interpretation of the transcendental primitives, used for
concrete evaluations. -/
def zeroModel : MathModel :=
  { sin := fun _ => 0
    cos := fun _ => 0
    sqrt := fun _ => 0
    pow15 := fun _ => 0
    pi := 0 }

/-! Projection lemmas: how each sub-step acts on each field of a cell. -/

section StepLemmas

variable (M : MathModel) (p : SimulationParams) (t : ℚ) (g : Grid) (i : ℕ)

lemma stepWater_x : (stepWater M p t g i).x = (g i).x := rfl

lemma stepWater_u : (stepWater M p t g i).u = (g i).u := rfl

lemma stepWater_zb : (stepWater M p t g i).zb = (g i).zb := rfl

lemma stepWater_qs : (stepWater M p t g i).qs = (g i).qs := rfl

lemma stepWater_sed : (stepWater M p t g i).sedimentThickness = (g i).sedimentThickness := rfl

lemma stepWater_bedrock : (stepWater M p t g i).bedrockLevel = (g i).bedrockLevel := rfl

lemma stepWater_init :
    (stepWater M p t g i).initialSedimentThickness = (g i).initialSedimentThickness := rfl

lemma stepWater_cum : (stepWater M p t g i).cumulativeChange = (g i).cumulativeChange := rfl

lemma stepWater_h :
    (stepWater M p t g i).h =
      max 0 (getTidalLevel M p t + getWaveLevel M p t (g i).x - (g i).zb) := rfl

lemma stepVT_x : (stepVelocityTransport M p t g i).x = (g i).x := rfl

lemma stepVT_h : (stepVelocityTransport M p t g i).h = (g i).h := rfl

lemma stepVT_zb : (stepVelocityTransport M p t g i).zb = (g i).zb := rfl

lemma stepVT_sed :
    (stepVelocityTransport M p t g i).sedimentThickness = (g i).sedimentThickness := rfl

lemma stepVT_bedrock :
    (stepVelocityTransport M p t g i).bedrockLevel = (g i).bedrockLevel := rfl

lemma stepVT_init :
    (stepVelocityTransport M p t g i).initialSedimentThickness =
      (g i).initialSedimentThickness := rfl

lemma stepVT_cum :
    (stepVelocityTransport M p t g i).cumulativeChange = (g i).cumulativeChange := rfl

lemma stepVT_u : (stepVelocityTransport M p t g i).u = newVelocity M p t g i := rfl

lemma stepVT_qs :
    (stepVelocityTransport M p t g i).qs =
      calculateSedimentTransport M p (newVelocity M p t g i) (g i).h
        (g i).sedimentThickness := rfl

lemma applyMorpho_x : (applyMorpho p g i).x = (g i).x := rfl

lemma applyMorpho_h : (applyMorpho p g i).h = (g i).h := rfl

lemma applyMorpho_u : (applyMorpho p g i).u = (g i).u := rfl

lemma applyMorpho_qs : (applyMorpho p g i).qs = (g i).qs := rfl

lemma applyMorpho_bedrock : (applyMorpho p g i).bedrockLevel = (g i).bedrockLevel := rfl

lemma applyMorpho_init :
    (applyMorpho p g i).initialSedimentThickness = (g i).initialSedimentThickness := rfl

lemma applyMorpho_sed :
    (applyMorpho p g i).sedimentThickness =
      if (g i).x < 300 then min 8.0 (max 0 ((g i).sedimentThickness + bedChange p g i))
      else min 12.0 (max 0 ((g i).sedimentThickness + bedChange p g i)) := rfl

lemma applyMorpho_cum :
    (applyMorpho p g i).cumulativeChange =
      (g i).cumulativeChange +
        (max 0 ((g i).sedimentThickness + bedChange p g i) - (g i).sedimentThickness) := rfl

lemma applyMorpho_zb :
    (applyMorpho p g i).zb =
      (g i).bedrockLevel + (applyMorpho p g i).sedimentThickness := rfl

lemma stepMorpho_eq_of_mem (hm : 2 ≤ i ∧ i ≤ gridSize - 3) :
    stepMorpho p g i = applyMorpho p g i := by
  unfold stepMorpho
  exact if_pos hm

lemma stepMorpho_eq_of_not_mem (hm : ¬(2 ≤ i ∧ i ≤ gridSize - 3)) :
    stepMorpho p g i = g i := by
  unfold stepMorpho
  exact if_neg hm

lemma stepMorpho_x : (stepMorpho p g i).x = (g i).x := by
  unfold stepMorpho; split <;> rfl

lemma stepMorpho_h : (stepMorpho p g i).h = (g i).h := by
  unfold stepMorpho; split <;> rfl

lemma stepMorpho_u : (stepMorpho p g i).u = (g i).u := by
  unfold stepMorpho; split <;> rfl

lemma stepMorpho_qs : (stepMorpho p g i).qs = (g i).qs := by
  unfold stepMorpho; split <;> rfl

lemma stepMorpho_bedrock : (stepMorpho p g i).bedrockLevel = (g i).bedrockLevel := by
  unfold stepMorpho; split <;> rfl

lemma stepMorpho_init :
    (stepMorpho p g i).initialSedimentThickness = (g i).initialSedimentThickness := by
  unfold stepMorpho; split <;> rfl

lemma stepBoundary_at_zero :
    stepBoundary g 0 =
      { g 0 with sedimentThickness := (g 1).sedimentThickness, zb := (g 1).zb } := rfl

lemma stepBoundary_at_last :
    stepBoundary g (gridSize - 1) =
      { g (gridSize - 1) with
        sedimentThickness := (g (gridSize - 2)).sedimentThickness
        zb := (g (gridSize - 2)).zb } := rfl

lemma stepBoundary_of_ne (h0 : i ≠ 0) (h1 : i ≠ gridSize - 1) :
    stepBoundary g i = g i := by
  unfold stepBoundary
  rw [if_neg h0, if_neg h1]

lemma stepBoundary_x : (stepBoundary g i).x = (g i).x := by
  unfold stepBoundary
  split_ifs with h1 h2
  · subst h1; rfl
  · subst h2; rfl
  · rfl

lemma stepBoundary_h : (stepBoundary g i).h = (g i).h := by
  unfold stepBoundary
  split_ifs with h1 h2
  · subst h1; rfl
  · subst h2; rfl
  · rfl

lemma stepBoundary_u : (stepBoundary g i).u = (g i).u := by
  unfold stepBoundary
  split_ifs with h1 h2
  · subst h1; rfl
  · subst h2; rfl
  · rfl

lemma stepBoundary_qs : (stepBoundary g i).qs = (g i).qs := by
  unfold stepBoundary
  split_ifs with h1 h2
  · subst h1; rfl
  · subst h2; rfl
  · rfl

lemma stepBoundary_bedrock : (stepBoundary g i).bedrockLevel = (g i).bedrockLevel := by
  unfold stepBoundary
  split_ifs with h1 h2
  · subst h1; rfl
  · subst h2; rfl
  · rfl

lemma stepBoundary_init :
    (stepBoundary g i).initialSedimentThickness = (g i).initialSedimentThickness := by
  unfold stepBoundary
  split_ifs with h1 h2
  · subst h1; rfl
  · subst h2; rfl
  · rfl

lemma stepBoundary_cum : (stepBoundary g i).cumulativeChange = (g i).cumulativeChange := by
  unfold stepBoundary
  split_ifs with h1 h2
  · subst h1; rfl
  · subst h2; rfl
  · rfl

end StepLemmas

/-! Field equations for one full simulation step. -/

section UpdateLemmas

variable (M : MathModel) (p : SimulationParams) (t : ℚ) (g : Grid) (i : ℕ)

lemma update_x : (updateSimulation M p t g i).x = (g i).x := by
  unfold updateSimulation
  rw [stepBoundary_x, stepMorpho_x, stepVT_x, stepWater_x]

lemma update_bedrock :
    (updateSimulation M p t g i).bedrockLevel = (g i).bedrockLevel := by
  unfold updateSimulation
  rw [stepBoundary_bedrock, stepMorpho_bedrock, stepVT_bedrock, stepWater_bedrock]

lemma update_init :
    (updateSimulation M p t g i).initialSedimentThickness =
      (g i).initialSedimentThickness := by
  unfold updateSimulation
  rw [stepBoundary_init, stepMorpho_init, stepVT_init, stepWater_init]

lemma update_h :
    (updateSimulation M p t g i).h =
      max 0 (getTidalLevel M p t + getWaveLevel M p t (g i).x - (g i).zb) := by
  unfold updateSimulation
  rw [stepBoundary_h, stepMorpho_h, stepVT_h, stepWater_h]

lemma update_u :
    (updateSimulation M p t g i).u = newVelocity M p t (stepWater M p t g) i := by
  unfold updateSimulation
  rw [stepBoundary_u, stepMorpho_u, stepVT_u]

lemma update_qs :
    (updateSimulation M p t g i).qs =
      calculateSedimentTransport M p (newVelocity M p t (stepWater M p t g) i)
        ((stepWater M p t g) i).h ((g i).sedimentThickness) := by
  unfold updateSimulation
  rw [stepBoundary_qs, stepMorpho_qs, stepVT_qs, stepWater_sed]

lemma update_eq_applyMorpho (h2 : 2 ≤ i) (h3 : i ≤ gridSize - 3) :
    updateSimulation M p t g i =
      applyMorpho p (stepVelocityTransport M p t (stepWater M p t g)) i := by
  have hg : gridSize = 200 := rfl
  unfold updateSimulation
  rw [stepBoundary_of_ne _ _ (by omega) (by rw [hg] at h3 ⊢; omega)]
  rw [stepMorpho_eq_of_mem _ _ _ ⟨h2, h3⟩]

lemma update_frame_of_not_mem (hne0 : i ≠ 0) (hne1 : i ≠ gridSize - 1)
    (hnm : ¬(2 ≤ i ∧ i ≤ gridSize - 3)) :
    (updateSimulation M p t g i).sedimentThickness = (g i).sedimentThickness ∧
      (updateSimulation M p t g i).zb = (g i).zb ∧
      (updateSimulation M p t g i).cumulativeChange = (g i).cumulativeChange := by
  unfold updateSimulation
  rw [stepBoundary_of_ne _ _ hne0 hne1, stepMorpho_eq_of_not_mem _ _ _ hnm]
  exact ⟨rfl, rfl, rfl⟩

lemma update_sed_zero :
    (updateSimulation M p t g 0).sedimentThickness = (g 1).sedimentThickness := by
  unfold updateSimulation
  rw [stepBoundary_at_zero]
  show (stepMorpho p _ 1).sedimentThickness = _
  rw [stepMorpho_eq_of_not_mem _ _ _ (by simp)]
  rfl

lemma update_zb_zero : (updateSimulation M p t g 0).zb = (g 1).zb := by
  unfold updateSimulation
  rw [stepBoundary_at_zero]
  show (stepMorpho p _ 1).zb = _
  rw [stepMorpho_eq_of_not_mem _ _ _ (by simp)]
  rfl

lemma update_cum_zero :
    (updateSimulation M p t g 0).cumulativeChange = (g 0).cumulativeChange := by
  unfold updateSimulation
  rw [stepBoundary_at_zero]
  show (stepMorpho p _ 0).cumulativeChange = _
  rw [stepMorpho_eq_of_not_mem _ _ _ (by simp)]
  rfl

lemma update_sed_last :
    (updateSimulation M p t g (gridSize - 1)).sedimentThickness =
      (g (gridSize - 2)).sedimentThickness := by
  unfold updateSimulation
  rw [stepBoundary_at_last]
  show (stepMorpho p _ (gridSize - 2)).sedimentThickness = _
  rw [stepMorpho_eq_of_not_mem _ _ _ (by simp [gridSize])]
  rfl

lemma update_zb_last :
    (updateSimulation M p t g (gridSize - 1)).zb = (g (gridSize - 2)).zb := by
  unfold updateSimulation
  rw [stepBoundary_at_last]
  show (stepMorpho p _ (gridSize - 2)).zb = _
  rw [stepMorpho_eq_of_not_mem _ _ _ (by simp [gridSize])]
  rfl

lemma update_cum_last :
    (updateSimulation M p t g (gridSize - 1)).cumulativeChange =
      (g (gridSize - 1)).cumulativeChange := by
  unfold updateSimulation
  rw [stepBoundary_at_last]
  show (stepMorpho p _ (gridSize - 1)).cumulativeChange = _
  rw [stepMorpho_eq_of_not_mem _ _ _ (by simp [gridSize])]
  rfl

end UpdateLemmas

/-! Clamp bounds. -/

lemma abs_clamp_le (a v : ℚ) (ha : 0 ≤ a) : |max (-a) (min a v)| ≤ a := by
  rw [abs_le]
  refine ⟨le_max_left _ _, max_le (by linarith) (min_le_left _ _)⟩

lemma transport_abs_le (M : MathModel) (p : SimulationParams) (u h s : ℚ) :
    |calculateSedimentTransport M p u h s| ≤ 0.02 := by
  simp only [calculateSedimentTransport]
  split
  · exact abs_clamp_le _ _ (by norm_num)
  · norm_num

lemma newVelocity_abs_le (M : MathModel) (p : SimulationParams) (t : ℚ) (g : Grid)
    (i : ℕ) : |newVelocity M p t g i| ≤ 2.0 := by
  simp only [newVelocity]
  split
  · split
    · exact abs_clamp_le _ _ (by norm_num)
    · norm_num
  · norm_num

/-! Facts about the created grid. -/

lemma createGrid_x (p : SimulationParams) (i : ℕ) : (createGrid p i).x = (i : ℚ) * dx := rfl

lemma createGrid_u (p : SimulationParams) (i : ℕ) : (createGrid p i).u = 0 := rfl

lemma createGrid_qs (p : SimulationParams) (i : ℕ) : (createGrid p i).qs = 0 := rfl

lemma createGrid_cum (p : SimulationParams) (i : ℕ) :
    (createGrid p i).cumulativeChange = 0 := rfl

lemma createGrid_init (p : SimulationParams) (i : ℕ) :
    (createGrid p i).initialSedimentThickness = (createGrid p i).sedimentThickness := rfl

lemma createGrid_zb (p : SimulationParams) (i : ℕ) :
    (createGrid p i).zb = (createGrid p i).bedrockLevel + (createGrid p i).sedimentThickness :=
  rfl

lemma createGrid_sed (p : SimulationParams) (i : ℕ) :
    (createGrid p i).sedimentThickness =
      if (i : ℚ) * dx < 200 then 0.2 * p.sedimentSupply
      else if (i : ℚ) * dx < 400 then 0.8 * p.sedimentSupply
      else if (i : ℚ) * dx < 700 then 1.5 * p.sedimentSupply
      else 1.0 * p.sedimentSupply := rfl

lemma createGrid_caps (p : SimulationParams) (h0 : 0 ≤ p.sedimentSupply)
    (h5 : p.sedimentSupply ≤ 5) (i : ℕ) :
    0 ≤ (createGrid p i).sedimentThickness ∧
      (createGrid p i).sedimentThickness ≤
        (if (createGrid p i).x < 300 then 8.0 else 12.0) := by
  rw [createGrid_sed, createGrid_x]
  constructor
  · split_ifs <;> linarith
  · split_ifs <;> linarith

/-! Claim theorems. -/

/-- C1: for every interpretation of the transcendental primitives, all
parameter values, every time, and every grid whose cells carry their
creation-time positions (`x = i·dx`, fixed at creation per the data model) and
satisfy the sediment caps (`0 ≤ sedimentThickness ≤ 8.0` for `x < 300`, `≤
12.0` otherwise), every cell of the grid returned by one simulation step
satisfies `h ≥ 0`, `sedimentThickness ≥ 0`, `sedimentThickness` within its
region cap, `|u| ≤ 2.0` and `|qs| ≤ 0.02`. -/
theorem step_preserves_invariants (M : MathModel) (p : SimulationParams) (t : ℚ)
    (g : Grid)
    (hx : ∀ i, i < gridSize → (g i).x = (i : ℚ) * dx)
    (hs : ∀ i, i < gridSize → 0 ≤ (g i).sedimentThickness ∧
      (g i).sedimentThickness ≤ (if (g i).x < 300 then 8.0 else 12.0)) :
    ∀ i, i < gridSize →
      0 ≤ (updateSimulation M p t g i).h ∧
      0 ≤ (updateSimulation M p t g i).sedimentThickness ∧
      (updateSimulation M p t g i).sedimentThickness ≤
        (if (updateSimulation M p t g i).x < 300 then 8.0 else 12.0) ∧
      |(updateSimulation M p t g i).u| ≤ 2.0 ∧
      |(updateSimulation M p t g i).qs| ≤ 0.02 := by
  intro i hi
  have hsed : 0 ≤ (updateSimulation M p t g i).sedimentThickness ∧
      (updateSimulation M p t g i).sedimentThickness ≤
        (if (g i).x < 300 then 8.0 else 12.0) := by
    by_cases hi0 : i = 0
    · subst hi0
      rw [update_sed_zero]
      have e0 : (g 0).x = 0 := by
        rw [hx 0 (by norm_num [gridSize])]; norm_num
      have e1 : (g 1).x = 5 := by
        rw [hx 1 (by norm_num [gridSize])]; norm_num [dx, domainLength, gridSize]
      have h1 := hs 1 (by norm_num [gridSize])
      rw [e1, if_pos (by norm_num)] at h1
      rw [e0, if_pos (by norm_num)]
      exact h1
    · by_cases hil : i = gridSize - 1
      · subst hil
        rw [update_sed_last]
        have e199 : (g (gridSize - 1)).x = 995 := by
          rw [hx (gridSize - 1) (by norm_num [gridSize])]
          norm_num [dx, domainLength, gridSize]
        have e198 : (g (gridSize - 2)).x = 990 := by
          rw [hx (gridSize - 2) (by norm_num [gridSize])]
          norm_num [dx, domainLength, gridSize]
        have h198 := hs (gridSize - 2) (by norm_num [gridSize])
        rw [e198, if_neg (by norm_num)] at h198
        rw [e199, if_neg (by norm_num)]
        exact h198
      · by_cases him : 2 ≤ i ∧ i ≤ gridSize - 3
        · rw [update_eq_applyMorpho M p t g i him.1 him.2, applyMorpho_sed,
            stepVT_x, stepWater_x, stepVT_sed, stepWater_sed]
          split_ifs
          · exact ⟨le_min (by norm_num) (le_max_left _ _), min_le_left _ _⟩
          · exact ⟨le_min (by norm_num) (le_max_left _ _), min_le_left _ _⟩
        · have hf := update_frame_of_not_mem M p t g i hi0 hil him
          rw [hf.1]
          exact hs i hi
  refine ⟨?_, hsed.1, ?_, ?_, ?_⟩
  · rw [update_h]
    exact le_max_left _ _
  · rw [update_x]
    exact hsed.2
  · rw [update_u]
    exact newVelocity_abs_le M p t _ i
  · rw [update_qs]
    exact transport_abs_le M p _ _ _

/-- C1 witness: the invariants hold at cell 0 after one step at time 0 from
the freshly created default grid, under the zero interpretation of the
transcendental primitives. -/
theorem step_preserves_invariants_witness :
    0 ≤ (updateSimulation zeroModel defaultParams 0 (createGrid defaultParams) 0).h ∧
    0 ≤ (updateSimulation zeroModel defaultParams 0
        (createGrid defaultParams) 0).sedimentThickness ∧
    (updateSimulation zeroModel defaultParams 0
        (createGrid defaultParams) 0).sedimentThickness ≤
      (if (updateSimulation zeroModel defaultParams 0
          (createGrid defaultParams) 0).x < 300 then 8.0 else 12.0) ∧
    |(updateSimulation zeroModel defaultParams 0 (createGrid defaultParams) 0).u| ≤ 2.0 ∧
    |(updateSimulation zeroModel defaultParams 0 (createGrid defaultParams) 0).qs| ≤
      0.02 :=
  step_preserves_invariants zeroModel defaultParams 0 (createGrid defaultParams)
    (fun i _ => rfl)
    (fun i _ => createGrid_caps defaultParams (by norm_num [defaultParams])
      (by norm_num [defaultParams]) i)
    0 (by norm_num [gridSize])

/-- C6: after every simulation step the boundary cells mirror their interior
neighbors in `sedimentThickness` and `zb`, and have zero velocity. -/
theorem step_boundary_mirror (M : MathModel) (p : SimulationParams) (t : ℚ) (g : Grid) :
    (updateSimulation M p t g 0).sedimentThickness =
      (updateSimulation M p t g 1).sedimentThickness ∧
    (updateSimulation M p t g 0).zb = (updateSimulation M p t g 1).zb ∧
    (updateSimulation M p t g (gridSize - 1)).sedimentThickness =
      (updateSimulation M p t g (gridSize - 2)).sedimentThickness ∧
    (updateSimulation M p t g (gridSize - 1)).zb =
      (updateSimulation M p t g (gridSize - 2)).zb ∧
    (updateSimulation M p t g 0).u = 0 ∧
    (updateSimulation M p t g (gridSize - 1)).u = 0 := by
  have hf1 := update_frame_of_not_mem M p t g 1 (by norm_num)
    (by norm_num [gridSize]) (by norm_num)
  have hf198 := update_frame_of_not_mem M p t g (gridSize - 2) (by norm_num [gridSize])
    (by norm_num [gridSize]) (by norm_num [gridSize])
  refine ⟨?_, ?_, ?_, ?_, ?_, ?_⟩
  · rw [update_sed_zero, hf1.1]
  · rw [update_zb_zero, hf1.2.1]
  · rw [update_sed_last, hf198.1]
  · rw [update_zb_last, hf198.2.1]
  · rw [update_u]
    simp only [newVelocity]
    rw [if_neg (by norm_num)]
  · rw [update_u]
    simp only [newVelocity]
    rw [if_neg (by norm_num [gridSize])]

lemma update_qs_mid (M : MathModel) (p : SimulationParams) (t : ℚ) (g : Grid) (j : ℕ) :
    (updateSimulation M p t g j).qs =
      (stepVelocityTransport M p t (stepWater M p t g) j).qs := by
  unfold updateSimulation
  rw [stepBoundary_qs, stepMorpho_qs]

/-- C3: one simulation step first completes the depth field,
`h = max(0, tidalLevel(time) + waveLevel(time, x) − zb)` from the pre-step
`zb`, for all cells before any velocity computation; then each interior cell
`1..gridSize−2` with new depth `> 0.05` gets
`u = clamp(u_old − dt·(9.81·dh_dx + friction − waveForce), −2.0, 2.0)`
computed from the updated depths and the pre-step velocity, interior cells
with depth `≤ 0.05` get `u = 0`, and both boundary cells get `u = 0`. -/
theorem step_hydrodynamics (M : MathModel) (p : SimulationParams) (t : ℚ) (g : Grid)
    (i : ℕ) (hi : i < gridSize) :
    (updateSimulation M p t g i).h =
      max 0 (getTidalLevel M p t + getWaveLevel M p t (g i).x - (g i).zb) ∧
    (1 ≤ i → i ≤ gridSize - 2 →
      ((updateSimulation M p t g i).h > 0.05 →
        (updateSimulation M p t g i).u =
          max (-2.0) (min 2.0 ((g i).u -
            dt * (9.81 * (((updateSimulation M p t g (i + 1)).h -
                (updateSimulation M p t g (i - 1)).h) / (2 * dx))
              + 0.02 * (g i).u * |(g i).u| / ((updateSimulation M p t g i).h + 0.01)
              - getWaveForce M p t (g i).x)))) ∧
      ((updateSimulation M p t g i).h ≤ 0.05 → (updateSimulation M p t g i).u = 0)) ∧
    ((i = 0 ∨ i = gridSize - 1) → (updateSimulation M p t g i).u = 0) := by
  refine ⟨update_h M p t g i, ?_, ?_⟩
  · intro h1 h2
    constructor
    · intro hwet
      rw [update_u]
      rw [update_h] at hwet
      simp only [newVelocity, stepWater_h, stepWater_u, stepWater_x,
        update_h]
      rw [if_pos ⟨h1, h2⟩, if_pos hwet]
    · intro hdry
      rw [update_u]
      rw [update_h] at hdry
      simp only [newVelocity, stepWater_h]
      rw [if_pos ⟨h1, h2⟩, if_neg (not_lt.mpr hdry)]
  · rintro (rfl | rfl)
    · rw [update_u]
      simp only [newVelocity]
      rw [if_neg (by norm_num)]
    · rw [update_u]
      simp only [newVelocity]
      rw [if_neg (by norm_num [gridSize])]

/-- C3 witness: the depth equation of the hydrodynamic step instantiated at
cell 0 of the default created grid at time 0 under the zero interpretation. -/
theorem step_hydrodynamics_witness :
    (updateSimulation zeroModel defaultParams 0 (createGrid defaultParams) 0).h =
      max 0 (getTidalLevel zeroModel defaultParams 0 +
        getWaveLevel zeroModel defaultParams 0 (createGrid defaultParams 0).x -
        (createGrid defaultParams 0).zb) :=
  (step_hydrodynamics zeroModel defaultParams 0 (createGrid defaultParams) 0
    (by norm_num [gridSize])).1

/-- C4: the transport rate is the clamped amplified Meyer-Peter-Muller
formula exactly when `|τ| > τ_crit`, `h > 0.01` and
`sedimentThickness > 0.001`, and `0` otherwise; in particular a cell with
zero sediment thickness produces `qs = 0` regardless of `u` and `h`. -/
theorem transport_formula (M : MathModel) (p : SimulationParams) (u h s : ℚ) :
    ((|1000 * 9.81 * h * |u| * u / (h + 0.01)| >
          0.03 * 1650 * 9.81 * (p.grainSize / 1000) ∧ h > 0.01 ∧ s > 0.001) →
      calculateSedimentTransport M p u h s =
        max (-0.02) (min 0.02
          (5.0 * M.sqrt (9.81 * (p.grainSize / 1000)) * (p.grainSize / 1000) *
            M.pow15 (min (|1000 * 9.81 * h * |u| * u / (h + 0.01)| /
              (0.03 * 1650 * 9.81 * (p.grainSize / 1000) + 0.0001) - 1) 8) *
            msign u * min 1 (s / 0.02)))) ∧
    (¬(|1000 * 9.81 * h * |u| * u / (h + 0.01)| >
          0.03 * 1650 * 9.81 * (p.grainSize / 1000) ∧ h > 0.01 ∧ s > 0.001) →
      calculateSedimentTransport M p u h s = 0) ∧
    (s = 0 → calculateSedimentTransport M p u h s = 0) := by
  have e : (0.03 : ℚ) * (2650 - 1000) * 9.81 * (p.grainSize / 1000) =
      0.03 * 1650 * 9.81 * (p.grainSize / 1000) := by norm_num
  refine ⟨?_, ?_, ?_⟩
  · intro hcond
    simp only [calculateSedimentTransport, e]
    rw [if_pos hcond]
  · intro hcond
    simp only [calculateSedimentTransport, e]
    rw [if_neg hcond]
  · rintro rfl
    simp only [calculateSedimentTransport]
    rw [if_neg (by rintro ⟨-, -, h3⟩; norm_num at h3)]

/-- C4 witness: a cell with zero sediment thickness produces zero transport. -/
theorem transport_formula_witness :
    calculateSedimentTransport zeroModel defaultParams 0 0 0 = 0 :=
  (transport_formula zeroModel defaultParams 0 0 0).2.2 rfl

/-- C5: for every interior cell `2..gridSize−3`, one step updates the bed by
the clamped Exner bed change computed from the freshly computed transport
rates of the neighbors, floors the new sediment thickness at `0`, caps it at
`8.0` for `x < 300` and `12.0` otherwise, and leaves
`zb = bedrockLevel + sedimentThickness` recomputed from the capped value. -/
theorem step_exner_update (M : MathModel) (p : SimulationParams) (t : ℚ) (g : Grid)
    (i : ℕ) (h2 : 2 ≤ i) (h3 : i ≤ gridSize - 3) :
    (updateSimulation M p t g i).sedimentThickness =
      (if (g i).x < 300
        then min 8.0 (max 0 ((g i).sedimentThickness +
          max (-0.1) (min 0.1
            (-(((updateSimulation M p t g (i + 1)).qs -
                (updateSimulation M p t g (i - 1)).qs) / (2 * dx)) / (1 - 0.2)
              * dt * p.simulationSpeed * 10.0))))
        else min 12.0 (max 0 ((g i).sedimentThickness +
          max (-0.1) (min 0.1
            (-(((updateSimulation M p t g (i + 1)).qs -
                (updateSimulation M p t g (i - 1)).qs) / (2 * dx)) / (1 - 0.2)
              * dt * p.simulationSpeed * 10.0))))) ∧
    (updateSimulation M p t g i).zb =
      (g i).bedrockLevel + (updateSimulation M p t g i).sedimentThickness := by
  have hg : gridSize = 200 := rfl
  have hmem : 1 ≤ i ∧ i ≤ gridSize - 2 := by
    rw [hg] at h3 ⊢
    omega
  rw [update_eq_applyMorpho M p t g i h2 h3]
  constructor
  · rw [applyMorpho_sed, stepVT_x, stepWater_x, stepVT_sed, stepWater_sed]
    simp only [bedChange]
    rw [if_pos hmem]
    rw [update_qs_mid M p t g (i + 1), update_qs_mid M p t g (i - 1)]
  · rw [applyMorpho_zb, stepVT_bedrock, stepWater_bedrock]

/-- C5 witness: the recomputed-bed-elevation equation instantiated at interior
cell 2 of the default created grid at time 0 under the zero interpretation. -/
theorem step_exner_update_witness :
    (updateSimulation zeroModel defaultParams 0 (createGrid defaultParams) 2).zb =
      (createGrid defaultParams 2).bedrockLevel +
        (updateSimulation zeroModel defaultParams 0
          (createGrid defaultParams) 2).sedimentThickness :=
  (step_exner_update zeroModel defaultParams 0 (createGrid defaultParams) 2
    (by norm_num) (by norm_num [gridSize])).2

/-- C9: resetting immediately after creation with the same shape parameters
reproduces the created grid cell by cell, with zero cumulative change
everywhere and the time reset to 0. -/
theorem reset_eq_create (p : SimulationParams) (i : ℕ) :
    (resetSimulation p).1 i = createGrid p i ∧
    ((resetSimulation p).1 i).cumulativeChange = 0 ∧
    (resetSimulation p).2 = 0 :=
  ⟨rfl, rfl, rfl⟩

/-- C2 counterexample: the default created grid satisfies
`zb = bedrockLevel + sedimentThickness` at every cell, yet after one step the
identity fails at boundary cell 0, whose `zb` is copied from cell 1 while its
own bedrock level is lower. -/
theorem step_consistency_fails_at_boundary :
    (∀ i, i < gridSize →
      (createGrid defaultParams i).zb =
        (createGrid defaultParams i).bedrockLevel +
          (createGrid defaultParams i).sedimentThickness) ∧
    (updateSimulation zeroModel defaultParams 0 (createGrid defaultParams) 0).zb ≠
      (updateSimulation zeroModel defaultParams 0
          (createGrid defaultParams) 0).bedrockLevel +
        (updateSimulation zeroModel defaultParams 0
          (createGrid defaultParams) 0).sedimentThickness := by
  constructor
  · exact fun i _ => createGrid_zb defaultParams i
  · rw [update_zb_zero, update_sed_zero, update_bedrock]
    norm_num [createGrid, makeGridPoint, dx, domainLength, gridSize, defaultParams]

/-- C2 (amended): if every cell satisfies
`zb = bedrockLevel + sedimentThickness` before the step, then after one step
the identity still holds at every cell `1..gridSize−2`; the two boundary
cells instead satisfy `zb = (bedrockLevel of the interior neighbor) +
sedimentThickness`. -/
theorem step_consistency_interior (M : MathModel) (p : SimulationParams) (t : ℚ)
    (g : Grid)
    (hcons : ∀ i, i < gridSize →
      (g i).zb = (g i).bedrockLevel + (g i).sedimentThickness) :
    (∀ i, 1 ≤ i → i ≤ gridSize - 2 →
      (updateSimulation M p t g i).zb =
        (updateSimulation M p t g i).bedrockLevel +
          (updateSimulation M p t g i).sedimentThickness) ∧
    (updateSimulation M p t g 0).zb =
      (g 1).bedrockLevel + (updateSimulation M p t g 0).sedimentThickness ∧
    (updateSimulation M p t g (gridSize - 1)).zb =
      (g (gridSize - 2)).bedrockLevel +
        (updateSimulation M p t g (gridSize - 1)).sedimentThickness := by
  have hg : gridSize = 200 := rfl
  refine ⟨?_, ?_, ?_⟩
  · intro i h1 h2
    rw [update_bedrock]
    by_cases him : 2 ≤ i ∧ i ≤ gridSize - 3
    · rw [update_eq_applyMorpho M p t g i him.1 him.2, applyMorpho_zb,
        stepVT_bedrock, stepWater_bedrock]
    · have hf := update_frame_of_not_mem M p t g i (by omega)
        (by rw [hg] at h2 ⊢; omega) him
      rw [hf.2.1, hf.1]
      exact hcons i (by rw [hg] at h2 ⊢; omega)
  · rw [update_zb_zero, update_sed_zero]
    exact hcons 1 (by norm_num [gridSize])
  · rw [update_zb_last, update_sed_last]
    exact hcons (gridSize - 2) (by norm_num [gridSize])

/-- C2 witness: the boundary form of the amended consistency identity at cell
0 of the stepped default grid. -/
theorem step_consistency_interior_witness :
    (updateSimulation zeroModel defaultParams 0 (createGrid defaultParams) 0).zb =
      (createGrid defaultParams 1).bedrockLevel +
        (updateSimulation zeroModel defaultParams 0
          (createGrid defaultParams) 0).sedimentThickness :=
  (step_consistency_interior zeroModel defaultParams 0 (createGrid defaultParams)
    (fun i _ => createGrid_zb defaultParams i)).2.1

/-- The dry-run parameter set of the C7 scenario: default parameters with
`waveHeight = 0` and `tidalRange = 0`. -/
def dryParams : SimulationParams :=
  { defaultParams with waveHeight := 0, tidalRange := 0 }

/-- C7 counterexample: with `waveHeight = 0` and `tidalRange = 0`, after one
step from the freshly created grid, cell 0 has depth `7.8`, not `0`: with
zero forcing the depth is the hydrostatic `max(0, −zb)`, which is positive
wherever the bed lies below datum. -/
theorem dry_run_depth_nonzero :
    (runSimulation zeroModel dryParams 1 0).h ≠ 0 := by
  simp only [runSimulation]
  rw [update_h]
  norm_num [getTidalLevel, getWaveLevel, zeroModel, createGrid, makeGridPoint, dx,
    domainLength, gridSize, dryParams, defaultParams]

/-- C7 (amended): with `waveHeight = 0` and `tidalRange = 0` the surface
forcing vanishes, so after every step the depth of every cell equals
`max(0, −zb)` computed from the pre-step bed elevation — positive wherever
the bed is below datum rather than `0` — and transport and bed change need
not vanish. -/
theorem dry_run_depth_formula (M : MathModel) (p : SimulationParams)
    (hW : p.waveHeight = 0) (hT : p.tidalRange = 0) (n i : ℕ) :
    (runSimulation M p (n + 1) i).h = max 0 (-(runSimulation M p n i).zb) := by
  simp only [runSimulation]
  rw [update_h]
  simp only [getTidalLevel, getWaveLevel, hW, hT]
  norm_num

/-- C7 witness: the amended depth formula after the first step of the dry
scenario at cell 0. -/
theorem dry_run_depth_formula_witness :
    (runSimulation zeroModel dryParams 1 0).h =
      max 0 (-(runSimulation zeroModel dryParams 0 0).zb) :=
  dry_run_depth_formula zeroModel dryParams rfl rfl 0 0

/-- Under the zero interpretation of the primitives the transport rate is
identically zero (the formula is proportional to `sqrt`). -/
lemma zeroModel_transport (p : SimulationParams) (u h s : ℚ) :
    calculateSedimentTransport zeroModel p u h s = 0 := by
  simp only [calculateSedimentTransport]
  split
  · norm_num [zeroModel]
  · rfl

/-- Under the zero interpretation all bed changes vanish. -/
lemma zeroModel_bedChange (p : SimulationParams) (t : ℚ) (g : Grid) (i : ℕ) :
    bedChange p (stepVelocityTransport zeroModel p t g) i = 0 := by
  simp only [bedChange]
  split
  · rw [stepVT_qs, stepVT_qs, zeroModel_transport, zeroModel_transport]
    norm_num
  · rfl

/-- The sediment-rich parameter set of the C8 counterexample: default
parameters with `sedimentSupply = 100`. -/
def richParams : SimulationParams := { defaultParams with sedimentSupply := 100 }

/-- C8 counterexample: starting from a grid created with sediment supply 100
(initial offshore thickness 20 m, above the 8 m cap), one step caps the thickness of cell 2
 at 8 m but records a cumulative change of 0, so
`cumulativeChange ≠ sedimentThickness − initialSedimentThickness` there. -/
theorem cumulative_drift_at_cap :
    (runSimulation zeroModel richParams 1 2).cumulativeChange ≠
      (runSimulation zeroModel richParams 1 2).sedimentThickness -
        (runSimulation zeroModel richParams 1 2).initialSedimentThickness := by
  simp only [runSimulation]
  rw [update_eq_applyMorpho zeroModel richParams _ _ 2 (by norm_num)
    (by norm_num [gridSize])]
  rw [applyMorpho_cum, applyMorpho_sed, applyMorpho_init, stepVT_init,
    stepWater_init, stepVT_cum, stepWater_cum, stepVT_sed, stepWater_sed,
    stepVT_x, stepWater_x, zeroModel_bedChange]
  norm_num [createGrid, makeGridPoint, dx, domainLength, gridSize, richParams,
    defaultParams]

/-- C8 (amended): `cumulativeChange = sedimentThickness −
initialSedimentThickness` is preserved by one step provided the region cap
does not bind at any interior cell (the floored new thickness stays within the
cap) and the boundary cells mirror the thickness of their interior neighbors before
the step; it holds at creation, and can fail once a cap binds. -/
theorem step_cumulative_tracks (M : MathModel) (p : SimulationParams) (t : ℚ)
    (g : Grid)
    (htrack : ∀ i, i < gridSize →
      (g i).cumulativeChange =
        (g i).sedimentThickness - (g i).initialSedimentThickness)
    (hm0 : (g 0).sedimentThickness = (g 1).sedimentThickness)
    (hmL : (g (gridSize - 1)).sedimentThickness =
      (g (gridSize - 2)).sedimentThickness)
    (hcap : ∀ i, 2 ≤ i → i ≤ gridSize - 3 →
      max 0 ((g i).sedimentThickness +
        bedChange p (stepVelocityTransport M p t (stepWater M p t g)) i) ≤
        (if (g i).x < 300 then 8.0 else 12.0)) :
    ∀ i, i < gridSize →
      (updateSimulation M p t g i).cumulativeChange =
        (updateSimulation M p t g i).sedimentThickness -
          (updateSimulation M p t g i).initialSedimentThickness := by
  intro i hi
  have hg : gridSize = 200 := rfl
  rw [update_init]
  by_cases hi0 : i = 0
  · subst hi0
    rw [update_cum_zero, update_sed_zero, htrack 0 (by norm_num [gridSize]), hm0]
  · by_cases hil : i = gridSize - 1
    · subst hil
      rw [update_cum_last, update_sed_last,
        htrack (gridSize - 1) (by norm_num [gridSize]), hmL]
    · by_cases him : 2 ≤ i ∧ i ≤ gridSize - 3
      · rw [update_eq_applyMorpho M p t g i him.1 him.2, applyMorpho_cum,
          applyMorpho_sed, stepVT_cum, stepWater_cum, stepVT_sed, stepWater_sed,
          stepVT_x, stepWater_x]
        have hc := hcap i him.1 him.2
        rw [htrack i hi]
        split_ifs with hxi
        · rw [if_pos hxi] at hc
          rw [min_eq_right hc]
          ring
        · rw [if_neg hxi] at hc
          rw [min_eq_right hc]
          ring
      · have hf := update_frame_of_not_mem M p t g i hi0 hil him
        rw [hf.2.2, hf.1]
        exact htrack i hi

/-- C8 witness: the tracking identity after one step from the default created
grid (where no cap binds), at cell 2. -/
theorem step_cumulative_tracks_witness :
    (updateSimulation zeroModel defaultParams 0
        (createGrid defaultParams) 2).cumulativeChange =
      (updateSimulation zeroModel defaultParams 0
          (createGrid defaultParams) 2).sedimentThickness -
        (updateSimulation zeroModel defaultParams 0
          (createGrid defaultParams) 2).initialSedimentThickness :=
  step_cumulative_tracks zeroModel defaultParams 0 (createGrid defaultParams)
    (fun i _ => by simp [createGrid_cum, createGrid_init])
    (by norm_num [createGrid_sed, dx, domainLength, gridSize])
    (by norm_num [createGrid_sed, dx, domainLength, gridSize])
    (fun i h2 h3 => by
      rw [zeroModel_bedChange, add_zero,
        max_eq_right (createGrid_caps defaultParams (by norm_num [defaultParams])
          (by norm_num [defaultParams]) i).1]
      exact (createGrid_caps defaultParams (by norm_num [defaultParams])
        (by norm_num [defaultParams]) i).2)
    2 (by norm_num [gridSize])

/-- The created grid has equal sediment thickness at each boundary cell and
its interior neighbor (cells 0 and 1 both lie in the `x < 200` zone; cells
`gridSize−2` and `gridSize−1` both lie in the `x ≥ 700` zone). -/
lemma createGrid_sed_boundary (p : SimulationParams) :
    (createGrid p 0).sedimentThickness = (createGrid p 1).sedimentThickness ∧
    (createGrid p (gridSize - 1)).sedimentThickness =
      (createGrid p (gridSize - 2)).sedimentThickness := by
  norm_num [createGrid_sed, dx, domainLength, gridSize]

/-- Across any run, cells 1 and `gridSize−2` keep their creation-time
`sedimentThickness`, `zb` and zero `cumulativeChange`, and the boundary cells
keep their creation-time `sedimentThickness` and zero `cumulativeChange`. -/
lemma run_frame (M : MathModel) (p : SimulationParams) (n : ℕ) :
    ((runSimulation M p n 1).sedimentThickness =
        (createGrid p 1).sedimentThickness ∧
      (runSimulation M p n 1).zb = (createGrid p 1).zb ∧
      (runSimulation M p n 1).cumulativeChange = 0) ∧
    ((runSimulation M p n (gridSize - 2)).sedimentThickness =
        (createGrid p (gridSize - 2)).sedimentThickness ∧
      (runSimulation M p n (gridSize - 2)).zb =
        (createGrid p (gridSize - 2)).zb ∧
      (runSimulation M p n (gridSize - 2)).cumulativeChange = 0) ∧
    ((runSimulation M p n 0).sedimentThickness =
        (createGrid p 0).sedimentThickness ∧
      (runSimulation M p n 0).cumulativeChange = 0) ∧
    ((runSimulation M p n (gridSize - 1)).sedimentThickness =
        (createGrid p (gridSize - 1)).sedimentThickness ∧
      (runSimulation M p n (gridSize - 1)).cumulativeChange = 0) := by
  induction n with
  | zero => exact ⟨⟨rfl, rfl, rfl⟩, ⟨rfl, rfl, rfl⟩, ⟨rfl, rfl⟩, ⟨rfl, rfl⟩⟩
  | succ n ih =>
    have hsb := createGrid_sed_boundary p
    have hf1 := update_frame_of_not_mem M p (((n : ℚ) + 1) * (dt * p.simulationSpeed))
      (runSimulation M p n) 1 (by norm_num) (by norm_num [gridSize]) (by norm_num)
    have hf198 := update_frame_of_not_mem M p
      (((n : ℚ) + 1) * (dt * p.simulationSpeed)) (runSimulation M p n)
      (gridSize - 2) (by norm_num [gridSize]) (by norm_num [gridSize])
      (by norm_num [gridSize])
    simp only [runSimulation]
    refine ⟨⟨hf1.1.trans ih.1.1, hf1.2.1.trans ih.1.2.1, hf1.2.2.trans ih.1.2.2⟩,
      ⟨hf198.1.trans ih.2.1.1, hf198.2.1.trans ih.2.1.2.1,
        hf198.2.2.trans ih.2.1.2.2⟩, ⟨?_, ?_⟩, ⟨?_, ?_⟩⟩
    · rw [update_sed_zero, ih.1.1]
      exact hsb.1.symm
    · rw [update_cum_zero]
      exact ih.2.2.1.2
    · rw [update_sed_last, ih.2.1.1]
      exact hsb.2.symm
    · rw [update_cum_last]
      exact ih.2.2.2.2

/-- C10 counterexample: boundary cell 0 does not keep its creation-time bed
elevation: after one step its `zb` is `−7.75`, copied from the neighbor, not its
own creation value `−7.8`. -/
theorem boundary_zb_changes :
    (runSimulation zeroModel defaultParams 1 0).zb ≠
      (runSimulation zeroModel defaultParams 0 0).zb := by
  simp only [runSimulation]
  rw [update_zb_zero]
  norm_num [createGrid, makeGridPoint, dx, domainLength, gridSize, defaultParams]

/-- C10 (amended): for the whole lifetime of the simulation, cells 1 and
`gridSize−2` keep their creation-time `sedimentThickness`, `zb` and zero
`cumulativeChange`; the boundary cells 0 and `gridSize−1` keep their
creation-time `sedimentThickness` and zero `cumulativeChange`, but from the
first step on their `zb` equals the creation-time `zb` of the interior neighbor
(not their own, whose bedrock level differs). -/
theorem buffer_cells_frozen (M : MathModel) (p : SimulationParams) (n : ℕ) :
    ((runSimulation M p n 1).sedimentThickness =
        (createGrid p 1).sedimentThickness ∧
      (runSimulation M p n 1).zb = (createGrid p 1).zb ∧
      (runSimulation M p n 1).cumulativeChange = 0) ∧
    ((runSimulation M p n (gridSize - 2)).sedimentThickness =
        (createGrid p (gridSize - 2)).sedimentThickness ∧
      (runSimulation M p n (gridSize - 2)).zb =
        (createGrid p (gridSize - 2)).zb ∧
      (runSimulation M p n (gridSize - 2)).cumulativeChange = 0) ∧
    ((runSimulation M p n 0).sedimentThickness =
        (createGrid p 0).sedimentThickness ∧
      (runSimulation M p n 0).cumulativeChange = 0) ∧
    ((runSimulation M p n (gridSize - 1)).sedimentThickness =
        (createGrid p (gridSize - 1)).sedimentThickness ∧
      (runSimulation M p n (gridSize - 1)).cumulativeChange = 0) ∧
    (1 ≤ n →
      (runSimulation M p n 0).zb = (createGrid p 1).zb ∧
      (runSimulation M p n (gridSize - 1)).zb =
        (createGrid p (gridSize - 2)).zb) := by
  refine ⟨(run_frame M p n).1, (run_frame M p n).2.1, (run_frame M p n).2.2.1,
    (run_frame M p n).2.2.2, ?_⟩
  intro hn
  obtain ⟨m, rfl⟩ : ∃ m, n = m + 1 := ⟨n - 1, by omega⟩
  constructor
  · simp only [runSimulation]
    rw [update_zb_zero]
    exact (run_frame M p m).1.2.1
  · simp only [runSimulation]
    rw [update_zb_last]
    exact (run_frame M p m).2.1.2.1

/-- C10 witness: the boundary bed elevations after the first step under the
zero interpretation of the primitives. -/
theorem buffer_cells_frozen_witness :
    (runSimulation zeroModel defaultParams 1 0).zb =
      (createGrid defaultParams 1).zb ∧
    (runSimulation zeroModel defaultParams 1 (gridSize - 1)).zb =
      (createGrid defaultParams (gridSize - 2)).zb :=
  (buffer_cells_frozen zeroModel defaultParams 1).2.2.2.2 (by norm_num)

end Beach
